import Mathlib

/-!
Verification development for the shopify-inventory-sync repository.

The Python sources are shallowly embedded:
* Python `str` values are modelled as `List Char` (Lean's builtin `String`
  primitives do not reduce in the kernel); `"…".data` injects literals.
* Python floats that only ever flow into `int(...)` are modelled by
  `PyFloatLit`, which records sign, integral part, fractional digits and the
  special values `inf`/`nan`; rate-limiter delays and match confidences are
  modelled as exact rationals `ℚ`.
* Fallible Python code (code that can raise) is modelled with
  `Except (List Char) _`, the error payload being `str(exception)`.
* Collaborators that live outside the embedded modules (the HTTP client, the
  feed downloaders, pandas frames) are passed in as explicit parameters, so
  the control flow of the embedded functions is exactly that of the source.
-/

/-! ### Python string primitives (`src/src/sku_matcher.py` helpers) -/

/-- Python `str.strip()`: drop whitespace from both ends. -/
def pyStrip (s : List Char) : List Char :=
  ((s.dropWhile Char.isWhitespace).reverse.dropWhile Char.isWhitespace).reverse

/-- Python `str.lower()` (ASCII fragment). -/
def pyLower (s : List Char) : List Char :=
  s.map Char.toLower

/-- Python `str.replace(",", "")`: removing every comma. -/
def pyRemoveCommas (s : List Char) : List Char :=
  s.filter (fun c => !(c == ','))

/-- Python `needle in haystack` on strings (substring containment). -/
def pyContains (needle : List Char) : List Char → Bool
  | [] => needle.isEmpty
  | c :: rest => needle.isPrefixOf (c :: rest) || pyContains needle rest

/-- Numeric value of a string of decimal digits. -/
def natOfDigits (s : List Char) : Nat :=
  s.foldl (fun n c => 10 * n + (c.toNat - '0'.toNat)) 0

/-- Split a string at every `'.'` (used to recognise Python float literals). -/
def splitDot : List Char → List (List Char)
  | [] => [[]]
  | c :: rest =>
    if c == '.' then [] :: splitDot rest
    else
      match splitDot rest with
      | [] => [[c]]
      | p :: ps => (c :: p) :: ps

/-! ### Raw cell values and `SKUMatcher._parse_quantity` -/

/-- A raw cell value as seen by the matcher: pandas `NaN`, Python `None`, or a
string.  (`str(NaN) = "nan"`, `str(None) = "None"`.) -/
inductive RawValue where
  | vNan
  | vNone
  | vStr (s : List Char)
deriving DecidableEq

/-- Python `str(value)` for the raw cell values above. -/
def pyStrOf : RawValue → List Char
  | .vNan => ['n', 'a', 'n']
  | .vNone => ['N', 'o', 'n', 'e']
  | .vStr s => s

/-- `pandas.isna` on the raw cell values above. -/
def pd_isna : RawValue → Bool
  | .vNan => true
  | .vNone => true
  | .vStr _ => false

/-- Result of Python `float(string)`: `nan`, signed `inf`, or a finite literal
with sign, integral part and fractional digits.  The embedding covers the
sign/digits/dot/`inf`/`nan` fragment of the grammar (no exponents and no
digit-group underscores, which the repository's feeds never produce). -/
inductive PyFloatLit where
  | nanLit
  | infLit (neg : Bool)
  | finLit (neg : Bool) (intPart : Nat) (fracDigits : List Char)
deriving DecidableEq

/-- Python `float(s)` on an already-stripped string; `none` means the call
raises `ValueError`. -/
def pyParseFloat (s0 : List Char) : Option PyFloatLit :=
  let signed : Bool × List Char :=
    match s0 with
    | '-' :: rest => (true, rest)
    | '+' :: rest => (false, rest)
    | rest => (false, rest)
  let neg := signed.1
  let s := signed.2
  let l := pyLower s
  if l = ['i', 'n', 'f'] ∨ l = ['i', 'n', 'f', 'i', 'n', 'i', 't', 'y'] then
    some (.infLit neg)
  else if l = ['n', 'a', 'n'] then
    some .nanLit
  else
    match splitDot s with
    | [a] =>
      if a ≠ [] ∧ a.all Char.isDigit then some (.finLit neg (natOfDigits a) []) else none
    | [a, b] =>
      if (a ≠ [] ∨ b ≠ []) ∧ a.all Char.isDigit ∧ b.all Char.isDigit then
        some (.finLit neg (natOfDigits a) b)
      else none
    | _ => none

/-- Python `int(f)` for a parsed float: truncation toward zero.  `int(nan)`
raises `ValueError`, `int(±inf)` raises `OverflowError`. -/
def pyIntOfFloat : PyFloatLit → Except (List Char) Int
  | .nanLit => .error "ValueError: cannot convert float NaN to integer".data
  | .infLit _ => .error "OverflowError: cannot convert float infinity to integer".data
  | .finLit neg ip _ => .ok (if neg then -(ip : Int) else (ip : Int))

/-- `SKUMatcher._parse_quantity` (src/src/sku_matcher.py:178-200).  The
`try/except (ValueError, TypeError)` converts parse failures and the
`int(nan)` `ValueError` into `0`; an `OverflowError` from `int(±inf)` is not
in the except clause and propagates. -/
def parse_quantity (v : RawValue) : Except (List Char) Int :=
  if pd_isna v then .ok 0
  else
    let qtyStr := pyRemoveCommas (pyStrip (pyStrOf v))
    match pyParseFloat qtyStr with
    | none => .ok 0
    | some .nanLit => .ok 0
    | some (.infLit b) => pyIntOfFloat (.infLit b)
    | some (.finLit neg ip fs) => pyIntOfFloat (.finLit neg ip fs)

/-! ### `SKUMatcher` data model -/

/-- One value of the `shopify_sku_map` dict built by
`SKUMatcher._create_shopify_sku_map`. -/
structure CatalogInfo where
  sku : List Char
  variant_id : Nat
  product_id : Nat
  product_title : List Char
  current_quantity : Int
  price : List Char
deriving DecidableEq

/-- The `shopify_sku_map` dict: insertion-ordered association of SKU keys to
catalog info (Python dicts iterate in insertion order). -/
abbrev CatalogMap := List (List Char × CatalogInfo)

/-- `match_type` values emitted by the matcher. -/
inductive MatchType where
  | exact
  | fuzzy
  | no_match
deriving DecidableEq, BEq

/-- Intermediate result of `_find_exact_match` / `_find_fuzzy_match`: the
catalog entry found plus the classification fields the methods add. -/
structure FoundMatch where
  info : CatalogInfo
  match_type : MatchType
  confidence : Option ℚ
deriving DecidableEq

/-- `SKUMatcher._find_exact_match` (src/src/sku_matcher.py:115-141): verbatim
dict lookup, then a first-hit case-insensitive scan. -/
def find_exact_match (file_sku : List Char) (m : CatalogMap) : Option FoundMatch :=
  match m.find? (fun p => p.1 == file_sku) with
  | some p => some ⟨p.2, .exact, some 1⟩
  | none =>
    match m.find? (fun p => pyLower file_sku == pyLower p.1) with
    | some p => some ⟨p.2, .exact, some 1⟩
    | none => none

/-- The scan inside `fuzzywuzzy.process.extractOne`: keep the best-scoring
choice, first one wins ties (Python `max` keeps the earliest maximum). -/
def extractScan (score : List Char → Nat) (best : (List Char × CatalogInfo) × Nat) :
    List (List Char × CatalogInfo) → (List Char × CatalogInfo) × Nat
  | [] => best
  | q :: rest => extractScan score (if best.2 < score q.1 then (q, score q.1) else best) rest

/-- `fuzzywuzzy.process.extractOne` over the catalog entries, scoring each key.
(The library scores `list(shopify_sku_map.keys())` and the caller indexes the
dict with the winning key; since dict keys are unique this is the same as
scanning the key/value pairs directly.)  Returns `none` on an empty catalog. -/
def extractOne (score : List Char → Nat) (choices : CatalogMap) :
    Option ((List Char × CatalogInfo) × Nat) :=
  match choices with
  | [] => none
  | p :: rest => some (extractScan score (p, score p.1) rest)

/-- `SKUMatcher._find_fuzzy_match` (src/src/sku_matcher.py:143-176).  The
similarity scorer (`fuzz.ratio` composed with the library's default processor)
is third-party code and is passed in abstractly as `score`. -/
def find_fuzzy_match (score : List Char → List Char → Nat) (fuzzy_threshold : Nat)
    (file_sku : List Char) (m : CatalogMap) : Option FoundMatch :=
  match extractOne (score file_sku) m with
  | none => none
  | some (p, sc) =>
    if fuzzy_threshold ≤ sc then some ⟨p.2, .fuzzy, some ((sc : ℚ) / 100)⟩ else none

/-- One element of the `matched_data` list built by `SKUMatcher.match_skus`
(`row_index` elided: it is a pandas index never read by the core). -/
structure MatchResult where
  file_sku : List Char
  shopify_sku : Option (List Char)
  variant_id : Option Nat
  product_id : Option Nat
  product_title : List Char
  current_quantity : Int
  new_quantity : Int
  match_type : MatchType
  confidence : Option ℚ
deriving DecidableEq

/-- The per-row body of `SKUMatcher.match_skus` (src/src/sku_matcher.py:46-81)
for a non-blank SKU: exact match first, fuzzy only on a miss, else the
`no_match` sentinel row. -/
def matchRow (score : List Char → List Char → Nat) (fuzzy_threshold : Nat)
    (m : CatalogMap) (file_sku : List Char) (quantity : Int) : MatchResult :=
  let found :=
    match find_exact_match file_sku m with
    | some f => some f
    | none => find_fuzzy_match score fuzzy_threshold file_sku m
  match found with
  | some f =>
    { file_sku := file_sku
      shopify_sku := some f.info.sku
      variant_id := some f.info.variant_id
      product_id := some f.info.product_id
      product_title := f.info.product_title
      current_quantity := f.info.current_quantity
      new_quantity := quantity
      match_type := f.match_type
      confidence := f.confidence }
  | none =>
    { file_sku := file_sku
      shopify_sku := none
      variant_id := none
      product_id := none
      product_title := "No Match Found".data
      current_quantity := 0
      new_quantity := quantity
      match_type := .no_match
      confidence := none }

/-- One feed row, already projected to its mapped `SKU` and `Quantity` cells
(the two columns `match_skus` reads). -/
structure FeedRow where
  skuCell : RawValue
  qtyCell : RawValue
deriving DecidableEq

/-- The row loop of `SKUMatcher.match_skus`: per row the SKU cell is
stringified and stripped, the quantity parsed (which can raise and abort the
loop), blank/`"nan"` SKUs are skipped, every other row emits one result. -/
def matchRows (score : List Char → List Char → Nat) (fuzzy_threshold : Nat)
    (m : CatalogMap) : List FeedRow → Except (List Char) (List MatchResult)
  | [] => .ok []
  | row :: rest => do
    let file_sku := pyStrip (pyStrOf row.skuCell)
    let quantity ← parse_quantity row.qtyCell
    let tail ← matchRows score fuzzy_threshold m rest
    if file_sku = [] ∨ file_sku = ['n', 'a', 'n'] then pure tail
    else pure (matchRow score fuzzy_threshold m file_sku quantity :: tail)

/-- Python truthiness of `column_mapping.get(...)`: missing key or empty
string are falsy. -/
def pyFalsyStrOpt : Option (List Char) → Bool
  | none => true
  | some [] => true
  | some (_ :: _) => false

/-- `SKUMatcher.match_skus` (src/src/sku_matcher.py:14-83): validates the
column mapping, then runs the row loop against the catalog index. -/
def match_skus (score : List Char → List Char → Nat) (fuzzy_threshold : Nat)
    (skuCol qtyCol : Option (List Char)) (rows : List FeedRow) (m : CatalogMap) :
    Except (List Char) (List MatchResult) :=
  if pyFalsyStrOpt skuCol || pyFalsyStrOpt qtyCol then
    .error "SKU and Quantity columns must be mapped".data
  else
    matchRows score fuzzy_threshold m rows

/-- The guard of `SKUMatcher.filter_matches` (src/src/sku_matcher.py:232-276):
`true` iff the sequence of `continue` checks all fall through. -/
def keepsItem (item : MatchResult) (include_exact include_fuzzy : Bool)
    (min_confidence : ℚ) (exclude_zero_qty : Bool) : Bool :=
  if item.match_type == .no_match then false
  else if item.match_type == .exact && !include_exact then false
  else if item.match_type == .fuzzy && !include_fuzzy then false
  else if item.match_type == .fuzzy &&
      (match item.confidence with
       | some c => decide (c < min_confidence)
       | none => false) then false
  else if exclude_zero_qty && item.new_quantity == 0 then false
  else true

/-- `SKUMatcher.filter_matches` (src/src/sku_matcher.py:232-276). -/
def filter_matches (matched_data : List MatchResult) (include_exact include_fuzzy : Bool)
    (min_confidence : ℚ) (exclude_zero_qty : Bool) : List MatchResult :=
  matched_data.filter
    (fun item => keepsItem item include_exact include_fuzzy min_confidence exclude_zero_qty)

/-- The highest similarity score any catalog SKU attains against `file_sku`
(the quantity the spec's fuzzy-threshold clause is stated about). -/
def bestScore (score : List Char → List Char → Nat) (file_sku : List Char)
    (m : CatalogMap) : Nat :=
  (m.map (fun p => score file_sku p.1)).foldl max 0

/-! ### `SyncScheduler.perform_batch_sync` (src/src/scheduler.py:321-410) -/

deriving instance DecidableEq for Except

/-- One outcome record appended to `results` by `perform_batch_sync`.
(`updated_fields` is absent on failure records, hence the `Option`; the
`details` payload of a field update is elided — it is never read.) -/
structure SyncOutcome where
  variant_id : Option Nat
  sku : Option (List Char)
  success : Bool
  error : Option (List Char)
  updated_fields : Option (List (List Char))
deriving DecidableEq

/-- The `sync_options` dict fields the executor reads. -/
structure SyncOptions where
  batch_size : Nat := 5
  skip_zero_inventory : Bool := false
deriving DecidableEq

/-- The two write entry points of `ShopifyClient` used by the executor,
injected as collaborator behaviour: `.error msg` models the call raising with
message `msg` (`str(e)`). -/
structure SyncClient where
  update_product_fields : MatchResult → List (List Char × Bool) → Except (List Char) Unit
  update_inventory : Option Nat → Int → Except (List Char) Unit

/-- The scheduler's overload classification:
`"temporarily unavailable" in error_msg.lower()`. -/
def overloadMsg (msg : List Char) : Bool :=
  pyContains "temporarily unavailable".data (pyLower msg)

/-- What one iteration of the item loop does: skip (`continue` without a
record), finish the item with a record, or record and `break` the batch. -/
inductive ItemStep where
  | skipped
  | done (o : SyncOutcome)
  | overloadStop (o : SyncOutcome)
deriving DecidableEq

/-- `[field for field, enabled in sync_fields.items() if enabled]`. -/
def enabledFields (sync_fields : List (List Char × Bool)) : List (List Char) :=
  (sync_fields.filter (fun f => f.2)).map (fun f => f.1)

/-- The body of the item loop in `perform_batch_sync`
(src/src/scheduler.py:333-404): zero-inventory skip, selective-update or
inventory-only call, then the `except` classification. -/
def processItem (client : SyncClient) (sync_fields : List (List Char × Bool))
    (opts : SyncOptions) (item : MatchResult) : ItemStep :=
  if opts.skip_zero_inventory && item.new_quantity == 0 then .skipped
  else
    let anyField := sync_fields.any (fun f => f.2)
    let callResult :=
      if anyField then client.update_product_fields item sync_fields
      else client.update_inventory item.variant_id item.new_quantity
    match callResult with
    | .ok _ =>
      .done
        { variant_id := item.variant_id, sku := item.shopify_sku, success := true,
          error := none,
          updated_fields :=
            some (if anyField then enabledFields sync_fields else ["inventory_quantity".data]) }
    | .error msg =>
      if overloadMsg msg then
        .overloadStop
          { variant_id := item.variant_id, sku := item.shopify_sku, success := false,
            error := some ("API overload: ".data ++ msg), updated_fields := none }
      else
        .done
          { variant_id := item.variant_id, sku := item.shopify_sku, success := false,
            error := some msg, updated_fields := none }

/-- The inner `for item in batch` loop: an overload record ends the batch
(`break`), every other step continues. -/
def processBatch (client : SyncClient) (sync_fields : List (List Char × Bool))
    (opts : SyncOptions) : List MatchResult → List SyncOutcome
  | [] => []
  | item :: rest =>
    match processItem client sync_fields opts item with
    | .skipped => processBatch client sync_fields opts rest
    | .done o => o :: processBatch client sync_fields opts rest
    | .overloadStop o => [o]

/-- Fuelled slicing loop behind `toBatches` (the fuel, bounded below by the
list length, keeps the recursion structural so that it reduces in the
kernel); each step takes one `batch_size` slice and drops it. -/
def toBatchesF (fuel n : Nat) (l : List MatchResult) : List (List MatchResult) :=
  match l with
  | [] => []
  | x :: xs =>
    match n with
    | 0 => []
    | n + 1 =>
      match fuel with
      | 0 => []
      | fuel + 1 => ((x :: xs).take (n + 1)) :: toBatchesF fuel (n + 1) ((x :: xs).drop (n + 1))

/-- `for i in range(0, len(sync_data), batch_size): batch = sync_data[i:i+batch_size]`.
A zero step makes Python `range` raise, so the executor is only ever run with
a positive batch size; the `0` case is given the empty slicing. -/
def toBatches (n : Nat) (l : List MatchResult) : List (List MatchResult) :=
  toBatchesF l.length n l

/-- `SyncScheduler.perform_batch_sync` (src/src/scheduler.py:321-410): apply
the `sync_fields or {'inventory_quantity': True}` default, then run every
batch in order, concatenating the outcome records (the inter-batch sleep has
no observable effect on the outcome list). -/
def perform_batch_sync (client : SyncClient) (sync_data : List MatchResult)
    (sync_fields0 : List (List Char × Bool)) (opts : SyncOptions) : List SyncOutcome :=
  let sync_fields :=
    if sync_fields0.isEmpty then [("inventory_quantity".data, true)] else sync_fields0
  (toBatches opts.batch_size sync_data).flatMap (processBatch client sync_fields opts)

/-! ### `SyncScheduler.execute_sync_job` (src/src/scheduler.py:132-271) -/

/-- The write set handed to the batch executor by the scheduled path:
`sync_data = [m for m in matched_data if m['match_type'] == 'exact']`
(src/src/scheduler.py:213). -/
def scheduledWriteSet (matched_data : List MatchResult) : List MatchResult :=
  matched_data.filter (fun m => m.match_type == MatchType.exact)

/-- The persistent per-job counters `execute_sync_job` mutates (timestamps
elided; `sync_fields`/`sync_options` travel with the job definition). -/
structure JobData where
  run_count : Nat := 0
  success_count : Nat := 0
  error_count : Nat := 0
  last_error : Option (List Char) := none
  sync_fields : List (List Char × Bool) := []
  sync_options : SyncOptions := {}

/-- The execution record `result` built by `execute_sync_job` (timestamps and
duration elided). -/
structure ExecResult where
  success : Bool
  error : Option (List Char)
  records_processed : Nat
  records_synced : Nat
deriving DecidableEq

/-- A downloaded feed: named columns plus the rows projected to the two
semantic cells the matcher reads. -/
structure Frame where
  columns : List (List Char)
  rows : List FeedRow

/-- Everything `execute_sync_job` consults outside the job record, injected as
explicit collaborator state: configuration lookups, the feed download, the
frame transformations applied by `FileProcessor`/`ColumnMapper`, the Shopify
reads and writes, and the similarity scorer. -/
structure SchedEnv where
  feed_config_found : Bool
  download : Except (List Char) Frame
  transform : Frame → Frame
  mappedSkuCol : Option (List Char)
  mappedQtyCol : Option (List Char)
  shopify_config_valid : Bool
  get_all_products : Except (List Char) CatalogMap
  score : List Char → List Char → Nat
  fuzzy_threshold : Nat
  client : SyncClient

/-- The inner API try block of `execute_sync_job`
(src/src/scheduler.py:202-228): fetch products, match, restrict to the exact
write set, batch-sync, count successes. -/
def innerApiBlock (env : SchedEnv) (job : JobData) (df : Frame) : Except (List Char) Nat :=
  do
    let m ← env.get_all_products
    let matched ← match_skus env.score env.fuzzy_threshold env.mappedSkuCol env.mappedQtyCol
      df.rows m
    let sync_data := scheduledWriteSet matched
    let sync_results := perform_batch_sync env.client sync_data job.sync_fields job.sync_options
    pure (sync_results.filter (fun r => r.success)).length

/-- `records_processed` is assigned as soon as the download returns
(src/src/scheduler.py:166), before any later failure. -/
def recordsProcessed (env : SchedEnv) : Nat :=
  match env.download with
  | .ok df => df.rows.length
  | .error _ => 0

/-- The guarded body of `execute_sync_job`: everything inside the outer `try`.
`.ok (synced, note)` carries the success count and the `result['error']` note
left by a tolerated "temporarily unavailable" API failure; `.error msg` models
an exception reaching the outer handler. -/
def executeBody (env : SchedEnv) (job : JobData) : Except (List Char) (Nat × Option (List Char)) :=
  if !env.feed_config_found then .error "Feed configuration not found".data
  else
    match env.download with
    | .error e => .error e
    | .ok df =>
      if df.rows.length == 0 then .error "No data found in feed".data
      else
        let df2 := env.transform df
        if "SKU".data ∉ df2.columns ∨ "Quantity".data ∉ df2.columns then
          .error "Required columns (SKU, Quantity) not found after mapping".data
        else if !env.shopify_config_valid then
          .error "Shopify configuration is not valid".data
        else
          match innerApiBlock env job df2 with
          | .ok synced => .ok (synced, none)
          | .error msg =>
            if overloadMsg msg then
              .ok (0, some ("API temporarily unavailable: ".data ++ msg))
            else .error msg

/-- `SyncScheduler.execute_sync_job` (src/src/scheduler.py:132-271): run the
guarded body; the outer `except Exception` turns any escaped exception into
`result['error']`/`last_error`/`error_count`, so the function always returns a
result record and an updated job record.  (The `finally` block only persists
and logs; both helpers swallow their own errors.) -/
def executeSyncJob (env : SchedEnv) (job0 : JobData) : ExecResult × JobData :=
  let job := { job0 with run_count := job0.run_count + 1 }
  match executeBody env job with
  | .ok (synced, note) =>
    ({ success := true, error := note, records_processed := recordsProcessed env,
       records_synced := synced },
     { job with success_count := job.success_count + 1, last_error := none })
  | .error msg =>
    ({ success := false, error := some msg, records_processed := recordsProcessed env,
       records_synced := 0 },
     { job with error_count := job.error_count + 1, last_error := some msg })

/-- One scheduler fire of a job: nothing in the execution path touches the
trigger registration set (`remove_job` is only called by the explicit
`remove_scheduled_sync` operation, and the `EVENT_JOB_ERROR` listener only
logs), so the registrations pass through unchanged. -/
def runScheduledFire (registrations : List (List Char)) (env : SchedEnv) (job : JobData) :
    List (List Char) × (ExecResult × JobData) :=
  (registrations, executeSyncJob env job)

/-! ### `CircuitBreaker` (src/utils/api_resilience.py:18-64) -/

/-- The three breaker states. -/
inductive CBMode where
  | closed
  | opn
  | halfOpen
deriving DecidableEq

/-- `CircuitBreaker.__init__`: configuration plus mutable counters.  Times are
modelled as natural numbers (`time.time()` samples are only ever compared). -/
structure CBState where
  failure_threshold : Nat := 5
  recovery_timeout : Nat := 60
  failure_count : Nat := 0
  last_failure_time : Option Nat := none
  state : CBMode := .closed
deriving DecidableEq

/-- `CircuitBreaker._should_attempt_reset`:
`time.time() - self.last_failure_time >= self.recovery_timeout`, written
without subtraction (the two are equivalent over the reals). -/
def should_attempt_reset (s : CBState) (now : Nat) : Bool :=
  match s.last_failure_time with
  | none => true
  | some t => t + s.recovery_timeout ≤ now

/-- What a protected call did: `blocked` means the breaker raised before
invoking the wrapped function; `ran b` means the function was invoked and
succeeded iff `b` (a failure re-raises to the caller after bookkeeping). -/
inductive CallOutcome where
  | blocked
  | ran (success : Bool)
deriving DecidableEq

/-- `CircuitBreaker._on_success`. -/
def cb_on_success (s : CBState) : CBState :=
  { s with failure_count := 0, state := .closed }

/-- `CircuitBreaker._on_failure`. -/
def cb_on_failure (s : CBState) (now : Nat) : CBState :=
  let fc := s.failure_count + 1
  { s with failure_count := fc, last_failure_time := some now,
           state := if s.failure_threshold ≤ fc then .opn else s.state }

/-- `CircuitBreaker.call` at time `now`, where `funcSucceeds` tells whether
the wrapped function would succeed if invoked. -/
def cbCall (s : CBState) (now : Nat) (funcSucceeds : Bool) : CBState × CallOutcome :=
  if s.state = .opn ∧ ¬ should_attempt_reset s now then (s, .blocked)
  else
    let s1 := if s.state = .opn then { s with state := .halfOpen } else s
    if funcSucceeds then (cb_on_success s1, .ran true)
    else (cb_on_failure s1 now, .ran false)

/-- A sequence of consecutive failing calls at the given times. -/
def cbRunFailures (s : CBState) (ts : List Nat) : CBState :=
  ts.foldl (fun st t => (cbCall st t false).1) s

/-! ### `AdaptiveRateLimiter` (src/utils/api_resilience.py:66-112) -/

/-- `AdaptiveRateLimiter.__init__`: delays as exact rationals (`0.9` below is
the decay factor `9/10`). -/
structure RLState where
  initial_delay : ℚ := 1/2
  max_delay : ℚ := 10
  current_delay : ℚ := 1/2
  success_count : Nat := 0
deriving DecidableEq

/-- `AdaptiveRateLimiter.on_success`. -/
def on_success (s : RLState) : RLState :=
  let s1 := { s with success_count := s.success_count + 1 }
  if 5 ≤ s1.success_count then
    { s1 with current_delay := max s1.initial_delay (s1.current_delay * (9 / 10)),
              success_count := 0 }
  else s1

/-- `AdaptiveRateLimiter.on_rate_limit`; `retry_after` is the parsed
`Retry-After` header, `none` when absent, and Python's `if retry_after:` also
treats `0` as absent. -/
def on_rate_limit (s : RLState) (retry_after : Option Int) : RLState :=
  let s1 := { s with success_count := 0 }
  match retry_after with
  | some r =>
    if r ≠ 0 then { s1 with current_delay := min s1.max_delay ((r : ℚ) + 1) }
    else { s1 with current_delay := min s1.max_delay (s1.current_delay * 2) }
  | none => { s1 with current_delay := min s1.max_delay (s1.current_delay * 2) }

/-- `AdaptiveRateLimiter.on_overload`. -/
def on_overload (s : RLState) : RLState :=
  { s with success_count := 0, current_delay := min s.max_delay (s.current_delay * 3) }

/-! ### Helper lemmas -/

lemma matchType_beq_eq (a b : MatchType) : (a == b) = true ↔ a = b := by
  cases a <;> cases b <;> simp <;> rfl

lemma matchType_beq_self (a : MatchType) : (a == a) = true := by
  cases a <;> rfl

/-! ### Claim C10 -/

/-- Claim C10: `filter_matches` unconditionally excludes every item whose
`match_type` is `no_match` from its output, for all combinations of
`include_exact`, `include_fuzzy`, `min_confidence` and `exclude_zero_qty`. -/
theorem filter_matches_excludes_no_match (matched_data : List MatchResult)
    (include_exact include_fuzzy : Bool) (min_confidence : ℚ) (exclude_zero_qty : Bool)
    (item : MatchResult)
    (hmem : item ∈ filter_matches matched_data include_exact include_fuzzy
      min_confidence exclude_zero_qty) :
    item.match_type ≠ MatchType.no_match := by
  intro hno
  rw [filter_matches, List.mem_filter] at hmem
  have hk := hmem.2
  rw [keepsItem, hno] at hk
  rw [if_pos (matchType_beq_self _)] at hk
  exact Bool.false_ne_true hk

def witnessExactItem : MatchResult :=
  { file_sku := "ABC-1".data, shopify_sku := some "ABC-1".data, variant_id := some 11
    product_id := some 21, product_title := "P1".data, current_quantity := 5
    new_quantity := 3, match_type := .exact, confidence := some 1 }

theorem filter_matches_excludes_no_match_witness :
    witnessExactItem ∈ filter_matches [witnessExactItem] true true 0 false ∧
    witnessExactItem.match_type ≠ MatchType.no_match :=
  ⟨by decide,
   filter_matches_excludes_no_match [witnessExactItem] true true 0 false
     witnessExactItem (by decide)⟩

/-! ### Claim C3 -/

/-- Claim C3: in the scheduled execution path every item of the write set
passed to the batch executor (`sync_data` in `execute_sync_job`, i.e.
`scheduledWriteSet`) has `match_type = exact`; `fuzzy` and `no_match` rows
never appear there, whatever the reconciliation output was. -/
theorem scheduled_write_set_exact_only (matched_data : List MatchResult)
    (m : MatchResult) (hmem : m ∈ scheduledWriteSet matched_data) :
    m.match_type = MatchType.exact := by
  rw [scheduledWriteSet, List.mem_filter] at hmem
  exact (matchType_beq_eq _ _).mp hmem.2

def witnessFuzzyItem : MatchResult :=
  { witnessExactItem with match_type := .fuzzy, confidence := some 1 }

def witnessNoMatchItem : MatchResult :=
  { witnessExactItem with shopify_sku := none, match_type := .no_match, confidence := none }

theorem scheduled_write_set_exact_only_witness :
    witnessExactItem ∈ scheduledWriteSet [witnessFuzzyItem, witnessExactItem, witnessNoMatchItem] ∧
    witnessExactItem.match_type = MatchType.exact ∧
    scheduledWriteSet [witnessFuzzyItem, witnessExactItem, witnessNoMatchItem] =
      [witnessExactItem] :=
  ⟨by decide,
   scheduled_write_set_exact_only
     [witnessFuzzyItem, witnessExactItem, witnessNoMatchItem] witnessExactItem (by decide),
   by decide⟩

/-! ### Claim C5 -/

/-- Claim C5 (counterexample): the claim says quantity normalization always
returns a non-negative integer and never raises.  On the code, input `"-5"`
parses to the negative integer `-5`, and input `"inf"` parses to an infinite
float whose `int(...)` conversion raises `OverflowError`, which the
`except (ValueError, TypeError)` clause does not catch. -/
theorem parse_quantity_claim_counterexample :
    parse_quantity (.vStr "-5".data) = .ok (-5) ∧ (-5 : Int) < 0 ∧
    parse_quantity (.vStr "inf".data) =
      .error "OverflowError: cannot convert float infinity to integer".data :=
  ⟨rfl, by decide, rfl⟩

/-- Claim C5 (amended): quantity normalization is deterministic and, except
when the cleaned cell parses as an infinite float (where `int(inf)` raises an
uncaught `OverflowError`), always returns an integer — `0` on a missing value
or any parse failure, and possibly a negative integer for negative inputs; the
spec's example inputs `"12"`, `"12.7"`, `"1,200"`, `None`, `"abc"` yield
`12, 12, 1200, 0, 0`. -/
theorem parse_quantity_amended :
    parse_quantity (.vStr "12".data) = .ok 12 ∧
    parse_quantity (.vStr "12.7".data) = .ok 12 ∧
    parse_quantity (.vStr "1,200".data) = .ok 1200 ∧
    parse_quantity .vNone = .ok 0 ∧
    parse_quantity (.vStr "abc".data) = .ok 0 ∧
    ∀ v : RawValue, (∃ n : Int, parse_quantity v = .ok n) ∨
      parse_quantity v =
        .error "OverflowError: cannot convert float infinity to integer".data := by
  refine ⟨rfl, rfl, rfl, rfl, rfl, ?_⟩
  intro v
  rw [parse_quantity]
  split
  · exact Or.inl ⟨0, rfl⟩
  · cases hpf : pyParseFloat (pyRemoveCommas (pyStrip (pyStrOf v))) with
    | none => exact Or.inl ⟨0, by simp [hpf]⟩
    | some fl =>
      cases fl with
      | nanLit => exact Or.inl ⟨0, by simp [hpf]⟩
      | infLit b => exact Or.inr (by simp [hpf, pyIntOfFloat])
      | finLit neg ip fs =>
        exact Or.inl ⟨if neg then -(ip : Int) else (ip : Int), by simp [hpf, pyIntOfFloat]⟩

/-! ### Claim C2 -/

lemma find_exact_match_some (sku : List Char) (m : CatalogMap)
    (h : ∃ p ∈ m, p.1 = sku ∨ pyLower p.1 = pyLower sku) :
    ∃ f, find_exact_match sku m = some f ∧ f.match_type = MatchType.exact ∧
      f.confidence = some 1 := by
  rw [find_exact_match]
  cases h1 : m.find? (fun p => p.1 == sku) with
  | some p => exact ⟨_, rfl, rfl, rfl⟩
  | none =>
    cases h2 : m.find? (fun p => pyLower sku == pyLower p.1) with
    | some p => exact ⟨_, rfl, rfl, rfl⟩
    | none =>
      exfalso
      obtain ⟨p, hp, hcase⟩ := h
      rw [List.find?_eq_none] at h1 h2
      cases hcase with
      | inl he => exact h1 p hp (by simp [he])
      | inr hl => exact h2 p hp (by simp [hl])

/-- Claim C2: for every input SKU present in the catalog index verbatim or
under case-insensitive equality, the emitted `MatchResult` is `exact` with
confidence exactly `1.0`, and the outcome does not depend on the fuzzy scorer
at all — fuzzy matching is never invoked for such a row. -/
theorem exact_match_precedence (score1 score2 : List Char → List Char → Nat)
    (thr : Nat) (m : CatalogMap) (sku : List Char) (qty : Int)
    (h : ∃ p ∈ m, p.1 = sku ∨ pyLower p.1 = pyLower sku) :
    (matchRow score1 thr m sku qty).match_type = MatchType.exact ∧
    (matchRow score1 thr m sku qty).confidence = some 1 ∧
    matchRow score1 thr m sku qty = matchRow score2 thr m sku qty := by
  obtain ⟨f, hf, hmt, hc⟩ := find_exact_match_some sku m h
  simp only [matchRow, hf]
  exact ⟨hmt, hc, by trivial⟩

def witnessInfo1 : CatalogInfo :=
  { sku := "ABC-1".data, variant_id := 11, product_id := 21,
    product_title := "P1".data, current_quantity := 5, price := "0.00".data }

def witnessInfo2 : CatalogInfo :=
  { sku := "XYZ-9".data, variant_id := 12, product_id := 22,
    product_title := "P2".data, current_quantity := 7, price := "0.00".data }

def witnessMap : CatalogMap :=
  [("ABC-1".data, witnessInfo1), ("XYZ-9".data, witnessInfo2)]

def witnessScore85 : List Char → List Char → Nat :=
  fun _ c => if c = "ABC-1".data then 85 else 10

def witnessScoreZero : List Char → List Char → Nat :=
  fun _ _ => 0

theorem exact_match_precedence_witness :
    (matchRow witnessScore85 85 witnessMap "abc-1".data 3).match_type = MatchType.exact ∧
    (matchRow witnessScore85 85 witnessMap "abc-1".data 3).confidence = some 1 ∧
    matchRow witnessScore85 85 witnessMap "abc-1".data 3 =
      matchRow witnessScoreZero 85 witnessMap "abc-1".data 3 :=
  exact_match_precedence witnessScore85 witnessScoreZero 85 witnessMap "abc-1".data 3
    ⟨("ABC-1".data, witnessInfo1), by decide, Or.inr (by decide)⟩

/-! ### Claim C1 -/

lemma if_lt_max (a c : Nat) : (if a < c then c else a) = max a c := by
  rcases Nat.lt_or_ge a c with h | h
  · rw [if_pos h, Nat.max_eq_right (Nat.le_of_lt h)]
  · rw [if_neg (Nat.not_lt.mpr h), Nat.max_eq_left h]

lemma extractScan_snd (score : List Char → Nat) (b : (List Char × CatalogInfo) × Nat)
    (l : List (List Char × CatalogInfo)) :
    (extractScan score b l).2 = l.foldl (fun a q => max a (score q.1)) b.2 := by
  induction l generalizing b with
  | nil => rfl
  | cons q rest ih =>
    rw [extractScan, ih, List.foldl_cons]
    congr 1
    rw [show (if b.2 < score q.1 then (q, score q.1) else b).2 =
      (if b.2 < score q.1 then score q.1 else b.2) from by split <;> rfl]
    exact if_lt_max b.2 (score q.1)

lemma extractOne_score (score : List Char → Nat) (q : List Char × CatalogInfo)
    (rest : List (List Char × CatalogInfo)) :
    ∃ p, extractOne score (q :: rest) =
      some (p, ((q :: rest).map (fun r => score r.1)).foldl max 0) := by
  rw [extractOne]
  refine ⟨(extractScan score (q, score q.1) rest).1, congrArg some (Prod.ext rfl ?_)⟩
  rw [extractScan_snd, List.map_cons, List.foldl_cons, List.foldl_map, Nat.zero_max]

/-- Claim C1: for an input SKU with no exact (case-sensitive or
case-insensitive) catalog match, if the highest similarity score over all
catalog SKUs reaches `fuzzy_threshold` the emitted `MatchResult` is `fuzzy`
with confidence `score/100` (the boundary score equal to the threshold is
matched), and if the highest score is strictly below the threshold the
emitted `MatchResult` is `no_match`. -/
theorem fuzzy_threshold_boundary (score : List Char → List Char → Nat) (thr : Nat)
    (m : CatalogMap) (sku : List Char) (qty : Int)
    (hno : ∀ p ∈ m, p.1 ≠ sku ∧ pyLower p.1 ≠ pyLower sku)
    (hne : m ≠ []) :
    (thr ≤ bestScore score sku m →
      (matchRow score thr m sku qty).match_type = MatchType.fuzzy ∧
      (matchRow score thr m sku qty).confidence =
        some ((bestScore score sku m : ℚ) / 100)) ∧
    (bestScore score sku m < thr →
      (matchRow score thr m sku qty).match_type = MatchType.no_match) := by
  have hex : find_exact_match sku m = none := by
    rw [find_exact_match]
    have h1 : m.find? (fun p => p.1 == sku) = none := by
      rw [List.find?_eq_none]
      intro p hp
      simpa using (hno p hp).1
    have h2 : m.find? (fun p => pyLower sku == pyLower p.1) = none := by
      rw [List.find?_eq_none]
      intro p hp
      simp only [beq_iff_eq]
      exact fun hl => (hno p hp).2 hl.symm
    rw [h1, h2]
  obtain ⟨q, rest, rfl⟩ : ∃ q rest, m = q :: rest := by
    cases m with
    | nil => exact absurd rfl hne
    | cons q rest => exact ⟨q, rest, rfl⟩
  obtain ⟨p, hext⟩ := extractOne_score (score sku) q rest
  have hb : ((q :: rest).map (fun r => score sku r.1)).foldl max 0 =
      bestScore score sku (q :: rest) := rfl
  rw [hb] at hext
  constructor
  · intro hthr
    have hfz : find_fuzzy_match score thr sku (q :: rest) =
        some ⟨p.2, .fuzzy, some ((bestScore score sku (q :: rest) : ℚ) / 100)⟩ := by
      simp only [find_fuzzy_match, hext]
      rw [if_pos hthr]
    simp only [matchRow, hex, hfz]
    exact ⟨by trivial, by trivial⟩
  · intro hlt
    have hfz : find_fuzzy_match score thr sku (q :: rest) = none := by
      simp only [find_fuzzy_match, hext]
      rw [if_neg (Nat.not_le.mpr hlt)]
    simp only [matchRow, hex, hfz]

def witnessScore84 : List Char → List Char → Nat :=
  fun _ c => if c = "ABC-1".data then 84 else 10

theorem fuzzy_threshold_boundary_witness :
    (matchRow witnessScore85 85 witnessMap "ZZZ".data 3).match_type = MatchType.fuzzy ∧
    (matchRow witnessScore85 85 witnessMap "ZZZ".data 3).confidence =
      some ((bestScore witnessScore85 "ZZZ".data witnessMap : ℚ) / 100) ∧
    (matchRow witnessScore84 85 witnessMap "ZZZ".data 3).match_type = MatchType.no_match :=
  ⟨(fuzzy_threshold_boundary witnessScore85 85 witnessMap "ZZZ".data 3
      (by decide) (by decide)).1 (by decide) |>.1,
   (fuzzy_threshold_boundary witnessScore85 85 witnessMap "ZZZ".data 3
      (by decide) (by decide)).1 (by decide) |>.2,
   (fuzzy_threshold_boundary witnessScore84 85 witnessMap "ZZZ".data 3
      (by decide) (by decide)).2 (by decide)⟩

/-! ### Claim C7 -/

def rlW4 : RLState :=
  { initial_delay := 1/2, max_delay := 10, current_delay := 4, success_count := 0 }

/-- Claim C7 (counterexample): the claim says the new delay after a 429 is
never below the old delay.  With `current_delay = 4` and a server hint
`Retry-After: 1`, the code sets `current_delay = min(10, 1+1) = 2 < 4`. -/
theorem on_rate_limit_hint_decreases :
    (on_rate_limit rlW4 (some 1)).current_delay = 2 ∧
    (on_rate_limit rlW4 (some 1)).current_delay < rlW4.current_delay := by
  have h : (on_rate_limit rlW4 (some 1)).current_delay =
      min (10 : ℚ) (((1 : Int) : ℚ) + 1) := rfl
  have h4 : rlW4.current_delay = (4 : ℚ) := rfl
  rw [h, h4]
  norm_num

/-- Claim C7 (amended): on HTTP 429 the delay is set to `retry_after + 1`
when a nonzero `Retry-After` hint is present and doubled when the hint is
absent (or zero), in both cases capped at `max_delay`; the new delay never
exceeds `max_delay`, and in the no-hint case it never falls below the old
delay provided the old delay was nonnegative and within `max_delay` — but a
hint below the current delay can decrease it. -/
theorem on_rate_limit_amended (s : RLState) (r : Int) :
    (on_rate_limit s (some r)).success_count = 0 ∧
    (on_rate_limit s none).success_count = 0 ∧
    (r ≠ 0 → (on_rate_limit s (some r)).current_delay = min s.max_delay ((r : ℚ) + 1)) ∧
    (on_rate_limit s (some 0)).current_delay = min s.max_delay (s.current_delay * 2) ∧
    (on_rate_limit s none).current_delay = min s.max_delay (s.current_delay * 2) ∧
    (on_rate_limit s (some r)).current_delay ≤ s.max_delay ∧
    (on_rate_limit s none).current_delay ≤ s.max_delay ∧
    (0 ≤ s.current_delay → s.current_delay ≤ s.max_delay →
      s.current_delay ≤ (on_rate_limit s none).current_delay) := by
  refine ⟨?_, rfl, ?_, ?_, rfl, ?_, min_le_left _ _, ?_⟩
  · simp only [on_rate_limit]
    split <;> rfl
  · intro hr
    simp only [on_rate_limit]
    rw [if_pos hr]
  · simp only [on_rate_limit]
    rw [if_neg (not_not_intro rfl)]
  · simp only [on_rate_limit]
    split
    · exact min_le_left _ _
    · exact min_le_left _ _
  · intro h0 hle
    exact le_min hle (by linarith)

theorem on_rate_limit_amended_witness :
    (on_rate_limit rlW4 (some 1)).success_count = 0 ∧
    (on_rate_limit rlW4 (some 1)).current_delay = min rlW4.max_delay (((1 : Int) : ℚ) + 1) ∧
    (on_rate_limit rlW4 none).current_delay ≤ rlW4.max_delay ∧
    rlW4.current_delay ≤ (on_rate_limit rlW4 none).current_delay := by
  have h := on_rate_limit_amended rlW4 1
  exact ⟨h.1, h.2.2.1 (by norm_num), h.2.2.2.2.2.2.1,
    h.2.2.2.2.2.2.2 (by norm_num [rlW4]) (by norm_num [rlW4])⟩

/-! ### Claim C8 -/

/-- Claim C8: from a fresh success streak, the first four successes leave
`current_delay` unchanged (only counting the streak); the fifth multiplies it
by the decay factor `0.9` floored at `initial_delay` and restarts the streak;
and a single rate-limit or overload failure resets the streak counter to 0. -/
theorem rate_limiter_decay (s : RLState) (h : s.success_count = 0) :
    (∀ k, k ≤ 4 → (on_success^[k] s).current_delay = s.current_delay ∧
      (on_success^[k] s).success_count = k) ∧
    (on_success^[5] s).current_delay = max s.initial_delay (s.current_delay * (9 / 10)) ∧
    (on_success^[5] s).success_count = 0 ∧
    (∀ t r, (on_rate_limit t r).success_count = 0) ∧
    (∀ t, (on_overload t).success_count = 0) := by
  have i1 : on_success^[1] s = { s with success_count := 1 } := by
    rw [Function.iterate_one]
    simp only [on_success, h]
    rw [if_neg (by norm_num)]
  have i2 : on_success^[2] s = { s with success_count := 2 } := by
    rw [show (2 : Nat) = 1 + 1 from rfl, Function.iterate_succ_apply', i1]
    simp only [on_success]
    rw [if_neg (by norm_num)]
  have i3 : on_success^[3] s = { s with success_count := 3 } := by
    rw [show (3 : Nat) = 2 + 1 from rfl, Function.iterate_succ_apply', i2]
    simp only [on_success]
    rw [if_neg (by norm_num)]
  have i4 : on_success^[4] s = { s with success_count := 4 } := by
    rw [show (4 : Nat) = 3 + 1 from rfl, Function.iterate_succ_apply', i3]
    simp only [on_success]
    rw [if_neg (by norm_num)]
  have i5 : on_success^[5] s =
      { s with current_delay := max s.initial_delay (s.current_delay * (9 / 10)),
               success_count := 0 } := by
    rw [show (5 : Nat) = 4 + 1 from rfl, Function.iterate_succ_apply', i4]
    simp only [on_success]
    rw [if_pos (by norm_num)]
  refine ⟨?_, by rw [i5], by rw [i5], ?_, fun t => rfl⟩
  · intro k hk
    interval_cases k
    · exact ⟨rfl, h⟩
    · rw [i1]; exact ⟨rfl, rfl⟩
    · rw [i2]; exact ⟨rfl, rfl⟩
    · rw [i3]; exact ⟨rfl, rfl⟩
    · rw [i4]; exact ⟨rfl, rfl⟩
  · intro t r
    cases r with
    | none => rfl
    | some x =>
      simp only [on_rate_limit]
      split <;> rfl

theorem rate_limiter_decay_witness :
    (on_success^[3] rlW4).current_delay = rlW4.current_delay ∧
    (on_success^[5] rlW4).current_delay =
      max rlW4.initial_delay (rlW4.current_delay * (9 / 10)) ∧
    (on_success^[5] rlW4).success_count = 0 ∧
    (on_rate_limit rlW4 none).success_count = 0 := by
  have h := rate_limiter_decay rlW4 rfl
  exact ⟨(h.1 3 (by norm_num)).1, h.2.1, h.2.2.1, h.2.2.2.1 rlW4 none⟩

/-! ### Claim C6 -/

/-- Whether an item step is the batch-aborting overload case. -/
def isOverloadStop : ItemStep → Bool
  | .overloadStop _ => true
  | _ => false

lemma processBatch_done (client : SyncClient) (sync_fields : List (List Char × Bool))
    (opts : SyncOptions) (x : MatchResult) (rest : List MatchResult) (o : SyncOutcome)
    (hx : processItem client sync_fields opts x = .done o) :
    processBatch client sync_fields opts (x :: rest) =
      o :: processBatch client sync_fields opts rest := by
  simp only [processBatch, hx]

lemma processBatch_skip (client : SyncClient) (sync_fields : List (List Char × Bool))
    (opts : SyncOptions) (x : MatchResult) (rest : List MatchResult)
    (hx : processItem client sync_fields opts x = .skipped) :
    processBatch client sync_fields opts (x :: rest) =
      processBatch client sync_fields opts rest := by
  simp only [processBatch, hx]

lemma processBatch_break (client : SyncClient) (sync_fields : List (List Char × Bool))
    (opts : SyncOptions) :
    ∀ (pre : List MatchResult) (x : MatchResult) (post : List MatchResult) (o : SyncOutcome),
    (∀ i ∈ pre, isOverloadStop (processItem client sync_fields opts i) = false) →
    processItem client sync_fields opts x = .overloadStop o →
    processBatch client sync_fields opts (pre ++ x :: post) =
      processBatch client sync_fields opts pre ++ [o] := by
  intro pre
  induction pre with
  | nil =>
    intro x post o _ hx
    simp only [List.nil_append, processBatch, hx]
  | cons i pre ih =>
    intro x post o hpre hx
    have hi := hpre i (List.mem_cons_self i pre)
    have hrest : ∀ j ∈ pre, isOverloadStop (processItem client sync_fields opts j) = false :=
      fun j hj => hpre j (List.mem_cons_of_mem _ hj)
    cases hstep : processItem client sync_fields opts i with
    | skipped =>
      rw [List.cons_append, processBatch_skip client sync_fields opts i _ hstep,
        processBatch_skip client sync_fields opts i _ hstep]
      exact ih x post o hrest hx
    | done o' =>
      rw [List.cons_append, processBatch_done client sync_fields opts i _ o' hstep,
        processBatch_done client sync_fields opts i _ o' hstep, ih x post o hrest hx,
        List.cons_append]
    | overloadStop o' =>
      rw [hstep] at hi
      exact absurd hi (by simp [isOverloadStop])

lemma toBatchesF_fuel :
    ∀ (fuel n : Nat) (l : List MatchResult), l.length ≤ fuel →
    toBatchesF fuel n l = toBatchesF l.length n l := by
  intro fuel
  induction fuel using Nat.strong_induction_on with
  | _ fuel ih =>
    intro n l hle
    cases l with
    | nil =>
      cases fuel <;> rfl
    | cons x xs =>
      cases n with
      | zero => cases fuel <;> rfl
      | succ k =>
        cases fuel with
        | zero => simp at hle
        | succ f =>
          simp only [List.length_cons] at hle
          show ((x :: xs).take (k + 1)) :: toBatchesF f (k + 1) ((x :: xs).drop (k + 1)) =
            toBatchesF (xs.length + 1) (k + 1) (x :: xs)
          have hstep : toBatchesF (xs.length + 1) (k + 1) (x :: xs) =
              ((x :: xs).take (k + 1)) :: toBatchesF xs.length (k + 1) ((x :: xs).drop (k + 1)) :=
            rfl
          rw [hstep]
          congr 1
          have hdlen : ((x :: xs).drop (k + 1)).length ≤ xs.length := by
            simp [List.length_drop]
          rw [ih f (by omega) (k + 1) _ (by omega),
            ih xs.length (by omega) (k + 1) _ hdlen]

lemma toBatches_append (n : Nat) (b1 b2 : List MatchResult)
    (hlen : b1.length = n) (hpos : 0 < n) :
    toBatches n (b1 ++ b2) = b1 :: toBatches n b2 := by
  cases n with
  | zero => exact absurd hpos (lt_irrefl 0)
  | succ k =>
    cases b1 with
    | nil => simp at hlen
    | cons y ys =>
      show toBatchesF (((y :: ys) ++ b2).length) (k + 1) ((y :: ys) ++ b2) = _
      have hL : ((y :: ys) ++ b2).length = (ys.length + b2.length) + 1 := by
        simp [List.length_append]
      rw [hL, List.cons_append]
      show ((y :: (ys ++ b2)).take (k + 1)) ::
          toBatchesF (ys.length + b2.length) (k + 1) ((y :: (ys ++ b2)).drop (k + 1)) = _
      rw [← List.cons_append, List.take_left' hlen, List.drop_left' hlen]
      congr 1
      have hfb : toBatchesF (ys.length + b2.length) (k + 1) b2 =
          toBatchesF b2.length (k + 1) b2 :=
        toBatchesF_fuel (ys.length + b2.length) (k + 1) b2 (by omega)
      simp only [List.length_cons] at hlen
      rw [hfb]
      rfl

/-- Claim C6: in batch sync execution, an overload-class error on one item
records that item's failure and aborts the remainder of the current batch
(items after it get no outcome records, items before it keep theirs); a
non-overload per-item error is recorded and processing continues with the
next item; and a completed batch never aborts the following batches of the
run. -/
theorem batch_fail_fast (client : SyncClient) (sync_fields : List (List Char × Bool))
    (opts : SyncOptions) :
    (∀ pre x post o,
      (∀ i ∈ pre, isOverloadStop (processItem client sync_fields opts i) = false) →
      processItem client sync_fields opts x = .overloadStop o →
      processBatch client sync_fields opts (pre ++ x :: post) =
        processBatch client sync_fields opts pre ++ [o]) ∧
    (∀ x rest o, processItem client sync_fields opts x = .done o →
      processBatch client sync_fields opts (x :: rest) =
        o :: processBatch client sync_fields opts rest) ∧
    (∀ b1 b2, sync_fields.isEmpty = false → b1.length = opts.batch_size →
      0 < opts.batch_size →
      perform_batch_sync client (b1 ++ b2) sync_fields opts =
        processBatch client sync_fields opts b1 ++
          perform_batch_sync client b2 sync_fields opts) := by
  refine ⟨processBatch_break client sync_fields opts,
    fun x rest o hx => processBatch_done client sync_fields opts x rest o hx, ?_⟩
  intro b1 b2 hne hlen hpos
  have hf : (if sync_fields.isEmpty then [("inventory_quantity".data, true)]
      else sync_fields) = sync_fields := by
    simp [hne]
  simp only [perform_batch_sync, hf]
  rw [toBatches_append opts.batch_size b1 b2 hlen hpos, List.flatMap_cons]

/-- A reconciled exact-match row used to exercise the batch executor. -/
def mkWItem (s : List Char) (vid : Nat) : MatchResult :=
  { file_sku := s, shopify_sku := some s, variant_id := some vid, product_id := some vid,
    product_title := "P".data, current_quantity := 0, new_quantity := 5,
    match_type := .exact, confidence := some 1 }

def wItemA : MatchResult := mkWItem "A".data 1
def wItemB : MatchResult := mkWItem "B".data 2
def wItemX : MatchResult := mkWItem "X".data 3
def wItemD : MatchResult := mkWItem "D".data 4
def wItemE : MatchResult := mkWItem "E".data 5

def wClient : SyncClient :=
  { update_product_fields := fun item _ =>
      if item.file_sku = "B".data then .error "boom".data
      else if item.file_sku = "X".data then .error "Service temporarily unavailable".data
      else .ok ()
    update_inventory := fun _ _ => .ok () }

def wFields : List (List Char × Bool) := [("inventory_quantity".data, true)]

def wOpts : SyncOptions := { batch_size := 5, skip_zero_inventory := false }

def wOutX : SyncOutcome :=
  { variant_id := some 3, sku := some "X".data, success := false,
    error := some "API overload: Service temporarily unavailable".data,
    updated_fields := none }

theorem batch_fail_fast_witness :
    processBatch wClient wFields wOpts ([wItemA, wItemB] ++ wItemX :: [wItemD]) =
      processBatch wClient wFields wOpts [wItemA, wItemB] ++ [wOutX] ∧
    perform_batch_sync wClient ([wItemA, wItemB, wItemX, wItemD, wItemE] ++ [wItemD])
        wFields wOpts =
      processBatch wClient wFields wOpts [wItemA, wItemB, wItemX, wItemD, wItemE] ++
        perform_batch_sync wClient [wItemD] wFields wOpts :=
  ⟨(batch_fail_fast wClient wFields wOpts).1 [wItemA, wItemB] wItemX [wItemD] wOutX
      (by decide) (by decide),
   (batch_fail_fast wClient wFields wOpts).2.2 [wItemA, wItemB, wItemX, wItemD, wItemE]
      [wItemD] (by decide) (by decide) (by decide)⟩


/-! ### Claim C4 -/

lemma cbCall_closed_failure (s : CBState) (t : Nat) (hs : s.state = .closed) :
    (cbCall s t false).1 = cb_on_failure s t := by
  simp [cbCall, hs]

lemma cbCall_open_blocked (R : CBState) (now : Nat) (b : Bool) (tl : Nat)
    (hR : R.state = .opn) (hlf : R.last_failure_time = some tl)
    (hlt : now < tl + R.recovery_timeout) :
    cbCall R now b = (R, .blocked) := by
  have hres : ¬ (should_attempt_reset R now = true) := by
    simp only [should_attempt_reset, hlf, decide_eq_true_eq]
    omega
  unfold cbCall
  rw [if_pos ⟨hR, hres⟩]

lemma cbCall_open_probe_success (R : CBState) (now : Nat) (tl : Nat)
    (hR : R.state = .opn) (hlf : R.last_failure_time = some tl)
    (hge : tl + R.recovery_timeout ≤ now) :
    cbCall R now true = (cb_on_success { R with state := .halfOpen }, .ran true) := by
  have hres : should_attempt_reset R now = true := by
    simp only [should_attempt_reset, hlf, decide_eq_true_eq]
    omega
  unfold cbCall
  rw [if_neg (fun h => h.2 hres), if_pos hR, if_pos rfl]

lemma cbCall_open_probe_failure (R : CBState) (now : Nat) (tl : Nat)
    (hR : R.state = .opn) (hlf : R.last_failure_time = some tl)
    (hge : tl + R.recovery_timeout ≤ now) :
    cbCall R now false = (cb_on_failure { R with state := .halfOpen } now, .ran false) := by
  have hres : should_attempt_reset R now = true := by
    simp only [should_attempt_reset, hlf, decide_eq_true_eq]
    omega
  unfold cbCall
  rw [if_neg (fun h => h.2 hres), if_pos hR, if_neg (by simp)]

lemma cb_on_failure_state_opn (t : CBState) (now : Nat)
    (h : t.failure_threshold ≤ t.failure_count + 1) :
    (cb_on_failure t now).state = .opn := by
  simp only [cb_on_failure]
  rw [if_pos h]

lemma cbRunFailures_closed_eq :
    ∀ (ts : List Nat) (s : CBState) (tl : Nat), s.state = .closed →
    s.failure_count + ts.length ≤ s.failure_threshold →
    ts.getLast? = some tl →
    cbRunFailures s ts =
      { s with failure_count := s.failure_count + ts.length,
               last_failure_time := some tl,
               state := if s.failure_count + ts.length = s.failure_threshold then
                 CBMode.opn else CBMode.closed } := by
  intro ts
  induction ts with
  | nil =>
    intro s tl _ _ hlast
    exact absurd hlast (by simp)
  | cons t ts ih =>
    intro s tl hs hle hlast
    have h1 : cbRunFailures s (t :: ts) = cbRunFailures ((cbCall s t false).1) ts := rfl
    rw [h1, cbCall_closed_failure s t hs]
    cases ts with
    | nil =>
      have htl : tl = t := by
        simp at hlast
        exact hlast.symm
      subst htl
      show cb_on_failure s tl = _
      simp only [List.length_cons, List.length_nil] at hle ⊢
      obtain ⟨ft, rt, fc, lf, st⟩ := s
      simp only at hs hle
      subst hs
      simp only [cb_on_failure]
      congr 1
      by_cases h : fc + 1 = ft
      · rw [if_pos (le_of_eq h.symm), if_pos (by omega)]
      · rw [if_neg (by omega), if_neg (by omega)]
    | cons t2 ts2 =>
      have hle' : (cb_on_failure s t).failure_count + (t2 :: ts2).length ≤
          (cb_on_failure s t).failure_threshold := by
        simp only [cb_on_failure, List.length_cons] at hle ⊢
        omega
      have hst' : (cb_on_failure s t).state = .closed := by
        simp only [cb_on_failure, hs]
        rw [if_neg (by simp only [List.length_cons] at hle; omega)]
      have hlast' : (t2 :: ts2).getLast? = some tl := by
        rw [List.getLast?_cons_cons] at hlast
        exact hlast
      rw [ih (cb_on_failure s t) tl hst' hle' hlast']
      simp only [List.length_cons] at hle ⊢
      obtain ⟨ft, rt, fc, lf, st⟩ := s
      simp only at hs hle
      subst hs
      simp only [cb_on_failure]
      congr 1
      · omega
      · by_cases h : fc + (ts2.length + 1 + 1) = ft
        · rw [if_pos (by omega), if_pos (by omega)]
        · rw [if_neg (by omega), if_neg (by omega)]

/-- Claim C4: starting from a fresh closed breaker, `failure_threshold`
consecutive failing calls leave the breaker OPEN with the failure counter at
the threshold; while the recovery timeout has not elapsed since the last
failure, any further call is rejected without invoking the wrapped function
and leaves the state untouched; once the timeout has elapsed the next call is
let through as a probe, whose success returns the breaker to CLOSED with the
counter reset to 0 and whose failure re-opens it. -/
theorem circuit_breaker_transitions (s : CBState) (ts : List Nat) (tl : Nat)
    (hclosed : s.state = .closed) (hzero : s.failure_count = 0)
    (hpos : 0 < s.failure_threshold)
    (hlen : ts.length = s.failure_threshold)
    (hlast : ts.getLast? = some tl) :
    (cbRunFailures s ts).state = .opn ∧
    (cbRunFailures s ts).failure_count = s.failure_threshold ∧
    (∀ now b, now < tl + s.recovery_timeout →
      cbCall (cbRunFailures s ts) now b = (cbRunFailures s ts, .blocked)) ∧
    (∀ now, tl + s.recovery_timeout ≤ now →
      (cbCall (cbRunFailures s ts) now true).2 = .ran true ∧
      (cbCall (cbRunFailures s ts) now true).1.state = .closed ∧
      (cbCall (cbRunFailures s ts) now true).1.failure_count = 0) ∧
    (∀ now, tl + s.recovery_timeout ≤ now →
      (cbCall (cbRunFailures s ts) now false).2 = .ran false ∧
      (cbCall (cbRunFailures s ts) now false).1.state = .opn) := by
  have hcond : s.failure_count + ts.length = s.failure_threshold := by omega
  have hrun := cbRunFailures_closed_eq ts s tl hclosed (by omega) hlast
  rw [if_pos hcond] at hrun
  rw [hrun]
  refine ⟨rfl, hcond, ?_, ?_, ?_⟩
  · intro now b hlt
    exact cbCall_open_blocked _ now b tl rfl rfl hlt
  · intro now hge
    rw [cbCall_open_probe_success
      { s with failure_count := s.failure_count + ts.length,
               last_failure_time := some tl, state := CBMode.opn } now tl rfl rfl hge]
    exact ⟨rfl, rfl, rfl⟩
  · intro now hge
    rw [cbCall_open_probe_failure
      { s with failure_count := s.failure_count + ts.length,
               last_failure_time := some tl, state := CBMode.opn } now tl rfl rfl hge]
    refine ⟨rfl, ?_⟩
    exact cb_on_failure_state_opn _ now
      (show s.failure_threshold ≤ s.failure_count + ts.length + 1 by omega)

def cbW : CBState :=
  { failure_threshold := 2, recovery_timeout := 60, failure_count := 0,
    last_failure_time := none, state := .closed }

theorem circuit_breaker_transitions_witness :
    (cbRunFailures cbW [5, 7]).state = .opn ∧
    (cbRunFailures cbW [5, 7]).failure_count = 2 ∧
    cbCall (cbRunFailures cbW [5, 7]) 30 true = (cbRunFailures cbW [5, 7], .blocked) ∧
    (cbCall (cbRunFailures cbW [5, 7]) 70 true).1.state = .closed ∧
    (cbCall (cbRunFailures cbW [5, 7]) 70 true).1.failure_count = 0 ∧
    (cbCall (cbRunFailures cbW [5, 7]) 70 false).1.state = .opn := by
  have h := circuit_breaker_transitions cbW [5, 7] 7 rfl rfl (by decide) (by decide) (by decide)
  exact ⟨h.1, h.2.1, h.2.2.1 30 true (by decide), (h.2.2.2.1 70 (by decide)).2.1,
    (h.2.2.2.1 70 (by decide)).2.2, (h.2.2.2.2 70 (by decide)).2⟩

/-! ### Claim C9 -/

def wFrame : Frame :=
  { columns := ["SKU".data, "Quantity".data],
    rows := [⟨.vStr "ABC-1".data, .vStr "5".data⟩] }

/-- A client whose catalog writes always fail with a non-overload error. -/
def wClientFail : SyncClient :=
  { update_product_fields := fun _ _ => .error "boom".data
    update_inventory := fun _ _ => .error "boom".data }

def envW : SchedEnv :=
  { feed_config_found := true
    download := .ok wFrame
    transform := id
    mappedSkuCol := some "SKU".data
    mappedQtyCol := some "Quantity".data
    shopify_config_valid := true
    get_all_products := .ok witnessMap
    score := witnessScoreZero
    fuzzy_threshold := 85
    client := wClientFail }

def jobW : JobData := {}

/-- The reconciled row the run above hands to the batch executor. -/
def wExactRow : MatchResult :=
  { file_sku := "ABC-1".data, shopify_sku := some "ABC-1".data, variant_id := some 11,
    product_id := some 21, product_title := "P1".data, current_quantity := 5,
    new_quantity := 5, match_type := .exact, confidence := some 1 }

/-- Claim C9 (counterexample): the claim says a catalog-write failure is
captured in the job's `last_error` and increments `error_count`.  In a run
where the only failure is a per-item catalog write failure, the write outcome
records the failure but `execute_sync_job` marks the run successful:
`result['error']` is `None`, `last_error` is `None` and `error_count` is
unchanged, because `perform_batch_sync` swallows per-item write errors. -/
theorem execute_sync_write_failure_counterexample :
    perform_batch_sync wClientFail [wExactRow] [] {} =
      [{ variant_id := some 11, sku := some "ABC-1".data, success := false,
         error := some "boom".data, updated_fields := none }] ∧
    (executeSyncJob envW jobW).1.success = true ∧
    (executeSyncJob envW jobW).1.error = none ∧
    (executeSyncJob envW jobW).1.records_synced = 0 ∧
    (executeSyncJob envW jobW).2.last_error = none ∧
    (executeSyncJob envW jobW).2.error_count = jobW.error_count := by
  refine ⟨?_, ?_, ?_, ?_, ?_, ?_⟩ <;> decide

/-- Claim C9 (amended): a feed-download failure and a mapping-validation
failure are captured as the execution record's `error` and the job's
`last_error`, incrementing `error_count`, with the execution function
returning normally; a per-item catalog-write failure is instead recorded in
the per-item batch outcomes and the loop continues — it does not set
`last_error` (the run is counted successful); in all cases nothing in the
execution path removes the job's trigger registration. -/
theorem execute_sync_failures_captured (env : SchedEnv) (job : JobData) :
    (∀ msg, env.feed_config_found = true → env.download = .error msg →
      executeSyncJob env job =
        ({ success := false, error := some msg, records_processed := 0,
           records_synced := 0 },
         { job with run_count := job.run_count + 1, error_count := job.error_count + 1,
                    last_error := some msg })) ∧
    (∀ df, env.feed_config_found = true → env.download = .ok df → df.rows.length ≠ 0 →
      ("SKU".data ∉ (env.transform df).columns ∨
        "Quantity".data ∉ (env.transform df).columns) →
      executeSyncJob env job =
        ({ success := false,
           error := some "Required columns (SKU, Quantity) not found after mapping".data,
           records_processed := df.rows.length, records_synced := 0 },
         { job with run_count := job.run_count + 1, error_count := job.error_count + 1,
                    last_error :=
                      some "Required columns (SKU, Quantity) not found after mapping".data })) ∧
    (∀ fields opts item rest o,
      processItem env.client fields opts item = .done o →
      processBatch env.client fields opts (item :: rest) =
        o :: processBatch env.client fields opts rest) ∧
    (∀ regs, (runScheduledFire regs env job).1 = regs) := by
  refine ⟨?_, ?_, fun fields opts item rest o h =>
    processBatch_done env.client fields opts item rest o h, fun regs => rfl⟩
  · intro msg hfound hdl
    have hbody : executeBody env { job with run_count := job.run_count + 1 } =
        .error msg := by
      simp only [executeBody, hfound, hdl, Bool.not_true, Bool.false_eq_true, if_false]
    simp only [executeSyncJob, hbody, recordsProcessed, hdl]
  · intro df hfound hdl hne hcols
    have hbeq : (df.rows.length == 0) = false := by
      simpa using hne
    have hbody : executeBody env { job with run_count := job.run_count + 1 } =
        .error "Required columns (SKU, Quantity) not found after mapping".data := by
      simp only [executeBody, hfound, hdl, Bool.not_true, Bool.false_eq_true, if_false, hbeq]
      rw [if_pos hcols]
    simp only [executeSyncJob, hbody, recordsProcessed, hdl]

def envDlFail : SchedEnv := { envW with download := .error "download failed".data }

def envNoCols : SchedEnv :=
  { envW with transform := fun f => { f with columns := ["A".data] } }

def wOutB : SyncOutcome :=
  { variant_id := some 2, sku := some "B".data, success := false,
    error := some "boom".data, updated_fields := none }

theorem execute_sync_failures_captured_witness :
    executeSyncJob envDlFail jobW =
      ({ success := false, error := some "download failed".data, records_processed := 0,
         records_synced := 0 },
       { jobW with run_count := jobW.run_count + 1, error_count := jobW.error_count + 1,
                   last_error := some "download failed".data }) ∧
    executeSyncJob envNoCols jobW =
      ({ success := false,
         error := some "Required columns (SKU, Quantity) not found after mapping".data,
         records_processed := wFrame.rows.length, records_synced := 0 },
       { jobW with run_count := jobW.run_count + 1, error_count := jobW.error_count + 1,
                   last_error :=
                     some "Required columns (SKU, Quantity) not found after mapping".data }) ∧
    processBatch envW.client wFields wOpts [wItemB] = [wOutB] ∧
    (runScheduledFire ["job1".data] envW jobW).1 = ["job1".data] :=
  ⟨(execute_sync_failures_captured envDlFail jobW).1 "download failed".data rfl rfl,
   (execute_sync_failures_captured envNoCols jobW).2.1 wFrame rfl rfl (by decide) (by decide),
   (execute_sync_failures_captured envW jobW).2.2.1 wFields wOpts wItemB [] wOutB (by decide),
   (execute_sync_failures_captured envW jobW).2.2.2 ["job1".data]⟩
